import Mathlib

/-!
Shallow embedding of the runtime configuration registry and rule-evaluation
engine of the ESP32 configurable IoT sensor hub sketch (the variant with
alarms and scheduled webhooks).

Modelling conventions:
* C `float` readings and bounds are modelled as exact rationals (`Rat`);
  every property of interest is an order comparison.
* `unsigned long` timestamps are 32-bit; the wrap-around subtraction
  `millis() - last` is modelled explicitly (`usub`).
* The fixed-size global arrays (`ds18b20List`, `alarms`, `webhooks`) are
  modelled as lists; the capacity checks of the add handlers are kept.
* The `char[32]` / `char[64]` / `char[256]` buffers are modelled as
  unbounded strings (truncation is not modelled).
* The `Preferences` NVS store is modelled as a partial map from a structured
  key type to typed values.  The structured keys stand for the string keys
  "ds18Count", "ds{i}_addr", ..., "al{i}_cd", "wh{i}_int" of the sketch,
  which are pairwise distinct, so the structured key type is faithful.
* The outbound HTTP calls are the excluded Notification Sink; a `sinkOk`
  parameter stands for the HTTP response, which the sketch only prints.
  The human-readable alarm message string is abstracted to which bound was
  crossed (the sketch builds it from exactly that case split).
-/

namespace SensorHub

/-- Sensor readings and alarm thresholds (C `float`), modelled exactly. -/
abbrev Value := Rat

/-- Model of `unsigned long` on the ESP32 is 32 bits. -/
def ULONG_MOD : Nat := 2 ^ 32

/-- Wrap-around subtraction on `unsigned long`, as in `millis() - last`. -/
def usub (a b : Nat) : Nat :=
  (a % ULONG_MOD + (ULONG_MOD - b % ULONG_MOD)) % ULONG_MOD

/-- Maximum counts from the sketch. -/
def MAX_DS18B20_SENSORS : Nat := 8

/-- Maximum number of alarms. -/
def MAX_ALARMS : Nat := 16

/-- Maximum number of scheduled webhooks. -/
def MAX_WEBHOOKS : Nat := 8

/-- Model of `enum SensorType` of the sketch. -/
inductive SensorType where
  | ds18b20
  | dht_temp
  | dht_hum
  | light
  | motion
deriving DecidableEq

/-- Model of `struct Alarm` of the sketch (field order preserved). -/
structure Alarm where
  id : String
  name : String
  sensorType : SensorType
  sensorId : String
  minValue : Value
  maxValue : Value
  enabled : Bool
  webhookUrl : String
  lastTriggered : Nat
  cooldownMs : Nat
deriving DecidableEq

/-- Model of `struct WebhookConfig` of the sketch. -/
structure WebhookConfig where
  id : String
  name : String
  url : String
  enabled : Bool
  updateIntervalMs : Nat
  lastUpdate : Nat
deriving DecidableEq

/-- Model of `struct DS18B20Sensor` of the sketch; the `uint8_t address[8]` is a list
of bytes (the length-8 requirement is carried as a hypothesis). -/
structure DS18B20Sensor where
  address : List (Fin 256)
  id : String
  name : String
  enabled : Bool
  lastReading : Value
deriving DecidableEq

/-- Typed values held by the `Preferences` store
(`putString`/`putInt`/`putBool`/`putFloat`/`putULong`). -/
inductive PrefValue where
  | pS (v : String)
  | pI (v : Int)
  | pB (v : Bool)
  | pF (v : Value)
  | pU (v : Nat)
deriving DecidableEq

/-- Per-sensor field keys, standing for the `"ds{i}_addr"`, `"ds{i}_id"`,
`"ds{i}_name"`, `"ds{i}_en"` string keys. -/
inductive DsField where
  | addr
  | id
  | name
  | en
deriving DecidableEq

/-- Per-alarm field keys (`"al{i}_id"` ... `"al{i}_cd"`). -/
inductive AlField where
  | id
  | name
  | type
  | sid
  | min
  | max
  | en
  | url
  | cd
deriving DecidableEq

/-- Per-webhook field keys (`"wh{i}_id"` ... `"wh{i}_int"`). -/
inductive WhField where
  | id
  | name
  | url
  | en
  | int
deriving DecidableEq

/-- Structured `Preferences` keys; these stand for the pairwise-distinct
string keys `"ds18Count"`, `"ds{i}_..."`, `"alarmCount"`, `"al{i}_..."`,
`"whCount"`, `"wh{i}_..."` used by the sketch. -/
inductive PrefKey where
  | dsCount
  | ds (i : Nat) (f : DsField)
  | alarmCount
  | al (i : Nat) (f : AlField)
  | whCount
  | wh (i : Nat) (f : WhField)
deriving DecidableEq

/-- The `Preferences` NVS store. -/
def Store := PrefKey → Option PrefValue

/-- Model of `preferences.putXxx(key, v)`. -/
def putP (st : Store) (k : PrefKey) (v : PrefValue) : Store :=
  fun k2 => if k2 = k then some v else st k2

/-- Model of `preferences.getString(key, default)`: the default is returned when the
key is absent or holds a value of another type. -/
def getStringD (st : Store) (k : PrefKey) (d : String) : String :=
  match st k with
  | some (.pS v) => v
  | _ => d

/-- Model of `preferences.getInt(key, default)`. -/
def getIntD (st : Store) (k : PrefKey) (d : Int) : Int :=
  match st k with
  | some (.pI v) => v
  | _ => d

/-- Model of `preferences.getBool(key, default)`. -/
def getBoolD (st : Store) (k : PrefKey) (d : Bool) : Bool :=
  match st k with
  | some (.pB v) => v
  | _ => d

/-- Model of `preferences.getFloat(key, default)`. -/
def getFloatD (st : Store) (k : PrefKey) (d : Value) : Value :=
  match st k with
  | some (.pF v) => v
  | _ => d

/-- Model of `preferences.getULong(key, default)`. -/
def getULongD (st : Store) (k : PrefKey) (d : Nat) : Nat :=
  match st k with
  | some (.pU v) => v
  | _ => d

/-- The module-level mutable globals of the sketch. -/
structure HubState where
  ds18b20List : List DS18B20Sensor
  alarms : List Alarm
  webhooks : List WebhookConfig
  dhtTemperature : Value
  dhtHumidity : Value
  motionDetected : Int
  lightLevel : Int
  relayState : Bool
  ledState : Bool
  prefs : Store

/-- The three persistent collections (what `saveConfiguration` and
`loadConfiguration` operate on). -/
structure RegState where
  ds18b20List : List DS18B20Sensor
  alarms : List Alarm
  webhooks : List WebhookConfig
deriving DecidableEq

/-- View of the persistent part of the global state. -/
def HubState.reg (s : HubState) : RegState :=
  ⟨s.ds18b20List, s.alarms, s.webhooks⟩

/-! ### Address codec (`addressToString` / `stringToAddress`) -/

/-- One lowercase hex digit, as produced by `String(x, HEX)`. -/
def hexDigitLower (n : Nat) : Char :=
  if n < 10 then Char.ofNat (48 + n) else Char.ofNat (87 + n)

/-- The (zero-padded, lowercase) two hex characters the sketch appends for
one address byte: `if (addr[i] < 16) result += "0"; result += String(addr[i], HEX)`. -/
def byteHex (b : Fin 256) : List Char :=
  if b.val < 16 then ['0', hexDigitLower b.val]
  else [hexDigitLower (b.val / 16), hexDigitLower (b.val % 16)]

/-- The character list built by the loop of `addressToString` before the
final `toUpperCase`: byte blocks separated by `':'` (a separator after every
byte except the last). -/
def addrChars : List (Fin 256) → List Char
  | [] => []
  | [b] => byteHex b
  | b :: rest => byteHex b ++ ':' :: addrChars rest

/-- Model of `addressToString`: hex blocks joined by `':'`, uppercased at the end. -/
def addressToString (addr : List (Fin 256)) : String :=
  String.mk ((addrChars addr).map Char.toUpper)

/-- Value of one hex digit character, both cases (as accepted by `strtol`
with base 16). -/
def hexVal? (c : Char) : Option Nat :=
  if 48 ≤ c.toNat ∧ c.toNat ≤ 57 then some (c.toNat - 48)
  else if 97 ≤ c.toNat ∧ c.toNat ≤ 102 then some (c.toNat - 87)
  else if 65 ≤ c.toNat ∧ c.toNat ≤ 70 then some (c.toNat - 55)
  else none

/-- Accumulator loop of base-16 `strtol` over leading hex digits. -/
def strtolHexAux : List Char → Nat → Nat
  | [], acc => acc
  | c :: cs, acc =>
    match hexVal? c with
    | some v => strtolHexAux cs (acc * 16 + v)
    | none => acc

/-- Model of `strtol(s, NULL, 16)` on the two-character substrings used here: parses
the leading hex digits (the inputs never carry whitespace, signs or a `0x`
so those strtol features are irrelevant), result 0 on no digits. -/
def strtolHex (cs : List Char) : Nat :=
  strtolHexAux cs 0

/-- The `(uint8_t)strtol(...)` cast. -/
def byteOfChars (cs : List Char) : Fin 256 :=
  ⟨strtolHex cs % 256, Nat.mod_lt _ (by decide)⟩

/-- Model of `stringToAddress`: for i in 0..7, parse `str.substring(3*i, 3*i + 2)`. -/
def stringToAddress (s : String) : List (Fin 256) :=
  (List.range 8).map fun i => byteOfChars ((s.data.drop (3 * i)).take 2)

/-! ### Sensor-type codec -/

/-- Model of `sensorTypeToString` of the sketch. -/
def sensorTypeToString : SensorType → String
  | .ds18b20 => "ds18b20"
  | .dht_temp => "dht_temp"
  | .dht_hum => "dht_hum"
  | .light => "light"
  | .motion => "motion"

/-- Model of `stringToSensorType` of the sketch: unknown strings fall back to
`SENSOR_DHT_TEMP`. -/
def stringToSensorType (s : String) : SensorType :=
  if s = "ds18b20" then .ds18b20
  else if s = "dht_temp" then .dht_temp
  else if s = "dht_hum" then .dht_hum
  else if s = "light" then .light
  else if s = "motion" then .motion
  else .dht_temp

/-! ### Value Source Abstraction (`getSensorValue`) -/

/-- Model of `getSensorValue` of the sketch: built-in channels return the cached
globals; for `SENSOR_DS18B20` a linear scan over `ds18b20List` returns the
first id match's `lastReading` and `-999.0` when no id matches. -/
def getSensorValue (s : HubState) (type : SensorType) (sensorId : String) : Value :=
  match type with
  | .dht_temp => s.dhtTemperature
  | .dht_hum => s.dhtHumidity
  | .light => (s.lightLevel : Value)
  | .motion => (s.motionDetected : Value)
  | .ds18b20 =>
    match s.ds18b20List.find? (fun sen => sen.id == sensorId) with
    | some sen => sen.lastReading
    | none => -999

/-! ### Alarm Evaluator (`checkAlarms`) -/

/-- Which threshold was crossed; stands for the human-readable message the
sketch builds (below-minimum checked first, else above-maximum). -/
inductive BoundCrossed where
  | belowMin
  | aboveMax
deriving DecidableEq

/-- The JSON payload of `sendWebhookPost` (message abstracted to
`crossed`, the case split the sketch builds it from). -/
structure AlarmNotification where
  url : String
  event : String
  crossed : BoundCrossed
  sensorId : String
  value : Value
  device : String
  timestamp : Nat
deriving DecidableEq

/-- One iteration of the `checkAlarms` loop.  `sinkOk` is the HTTP response
of the Notification Sink, which the sketch only prints: it influences
nothing. -/
def checkAlarm1 (s : HubState) (sinkOk : Bool) (now : Nat) (a : Alarm) :
    Alarm × Option AlarmNotification :=
  if !a.enabled then (a, none)
  else
    let currentValue := getSensorValue s a.sensorType a.sensorId
    if (currentValue < a.minValue ∨ currentValue > a.maxValue) ∧
        usub now a.lastTriggered > a.cooldownMs then
      ({ a with lastTriggered := now },
        some { url := a.webhookUrl
               event := "alarm_triggered"
               crossed := if currentValue < a.minValue then .belowMin else .aboveMax
               sensorId := a.sensorId
               value := currentValue
               device := "ESP32"
               timestamp := now })
    else (a, none)

/-- Model of `checkAlarms`: evaluate every alarm on a tick; collects the emitted
notifications in loop order.  (The loop body of the sketch mutates only
`alarms[i].lastTriggered`, which no other iteration reads, so a map is
faithful.) -/
def checkAlarms (s : HubState) (sinkOk : Bool) (now : Nat) :
    HubState × List AlarmNotification :=
  let results := s.alarms.map (checkAlarm1 s sinkOk now)
  ({ s with alarms := results.map Prod.fst }, results.filterMap Prod.snd)

/-! ### Scheduler (`sendScheduledWebhooks`) -/

/-- The full-snapshot JSON payload of a scheduled update. -/
structure ScheduledNotification where
  url : String
  event : String
  webhookName : String
  timestamp : Nat
  dhtTemperature : Value
  dhtHumidity : Value
  light : Int
  motion : Int
  relay : Bool
  led : Bool
  sensors : List (String × String × Value)
deriving DecidableEq

/-- The snapshot document built inside `sendScheduledWebhooks` (id, name and
`lastReading` of every enabled DS18B20 sensor, plus the built-in channels). -/
def scheduledPayload (s : HubState) (now : Nat) (w : WebhookConfig) :
    ScheduledNotification :=
  { url := w.url
    event := "scheduled_update"
    webhookName := w.name
    timestamp := now
    dhtTemperature := s.dhtTemperature
    dhtHumidity := s.dhtHumidity
    light := s.lightLevel
    motion := s.motionDetected
    relay := s.relayState
    led := s.ledState
    sensors := (s.ds18b20List.filter (fun sen => sen.enabled)).map
      (fun sen => (sen.id, sen.name, sen.lastReading)) }

/-- One iteration of the `sendScheduledWebhooks` loop: skip when disabled or
`updateIntervalMs == 0`; fire when `millis() - lastUpdate >= interval`;
`lastUpdate := millis()` after the attempt, whatever `sinkOk` is. -/
def sendScheduled1 (s : HubState) (sinkOk : Bool) (now : Nat) (w : WebhookConfig) :
    WebhookConfig × Option ScheduledNotification :=
  if !w.enabled || w.updateIntervalMs == 0 then (w, none)
  else if usub now w.lastUpdate ≥ w.updateIntervalMs then
    ({ w with lastUpdate := now }, some (scheduledPayload s now w))
  else (w, none)

/-- Model of `sendScheduledWebhooks` over the whole webhook list on one tick. -/
def sendScheduledWebhooks (s : HubState) (sinkOk : Bool) (now : Nat) :
    HubState × List ScheduledNotification :=
  let results := s.webhooks.map (sendScheduled1 s sinkOk now)
  ({ s with webhooks := results.map Prod.fst }, results.filterMap Prod.snd)

/-- Trace of one webhook entry across successive scheduler ticks at the
given times (environment `s` held fixed); returns the final entry and the
times at which it fired. -/
def schedTrace (s : HubState) (sinkOk : Bool) (w : WebhookConfig) :
    List Nat → WebhookConfig × List Nat
  | [] => (w, [])
  | t :: ts =>
    let step := sendScheduled1 s sinkOk t w
    let rest := schedTrace s sinkOk step.1 ts
    (rest.1, (if step.2.isSome then [t] else []) ++ rest.2)

/-! ### Persistence Adapter (`saveConfiguration` / `loadConfiguration`) -/

/-- Field values `saveConfiguration` writes for one DS18B20 sensor. -/
def dsFieldVal (sen : DS18B20Sensor) : DsField → PrefValue
  | .addr => .pS (addressToString sen.address)
  | .id => .pS sen.id
  | .name => .pS sen.name
  | .en => .pB sen.enabled

/-- Field values `saveConfiguration` writes for one alarm (note:
`lastTriggered` is not among them). -/
def alFieldVal (a : Alarm) : AlField → PrefValue
  | .id => .pS a.id
  | .name => .pS a.name
  | .type => .pS (sensorTypeToString a.sensorType)
  | .sid => .pS a.sensorId
  | .min => .pF a.minValue
  | .max => .pF a.maxValue
  | .en => .pB a.enabled
  | .url => .pS a.webhookUrl
  | .cd => .pU a.cooldownMs

/-- Field values `saveConfiguration` writes for one webhook (note:
`lastUpdate` is not among them). -/
def whFieldVal (w : WebhookConfig) : WhField → PrefValue
  | .id => .pS w.id
  | .name => .pS w.name
  | .url => .pS w.url
  | .en => .pB w.enabled
  | .int => .pU w.updateIntervalMs

/-- Sequence of `putP` writes for a list of fields of one entry. -/
def putFields {F : Type} (mk : F → PrefKey) (fv : F → PrefValue)
    (st : Store) (fs : List F) : Store :=
  fs.foldl (fun acc f => putP acc (mk f) (fv f)) st

/-- The sensor fields, in the order the sketch writes them. -/
def DsField.all : List DsField := [.addr, .id, .name, .en]

/-- The alarm fields, in the order the sketch writes them. -/
def AlField.all : List AlField := [.id, .name, .type, .sid, .min, .max, .en, .url, .cd]

/-- The webhook fields, in the order the sketch writes them. -/
def WhField.all : List WhField := [.id, .name, .url, .en, .int]

/-- The writes of one iteration of the sensor-saving loop. -/
def saveSensorAt (st : Store) (i : Nat) (sen : DS18B20Sensor) : Store :=
  putFields (PrefKey.ds i) (dsFieldVal sen) st DsField.all

/-- The writes of one iteration of the alarm-saving loop. -/
def saveAlarmAt (st : Store) (i : Nat) (a : Alarm) : Store :=
  putFields (PrefKey.al i) (alFieldVal a) st AlField.all

/-- The writes of one iteration of the webhook-saving loop. -/
def saveWebhookAt (st : Store) (i : Nat) (w : WebhookConfig) : Store :=
  putFields (PrefKey.wh i) (whFieldVal w) st WhField.all

/-- An indexed saving loop `for (int i = 0; i < count; i++) saveAt(st, i, x_i)`. -/
def saveEntries {α : Type} (saveAt : Store → Nat → α → Store) :
    List α → Nat → Store → Store
  | [], _, st => st
  | x :: rest, i, st => saveEntries saveAt rest (i + 1) (saveAt st i x)

/-- Model of `saveConfiguration`: counts plus per-index field records for the three
collections; runtime-only fields are never written. -/
def saveConfiguration (reg : RegState) (st : Store) : Store :=
  let st1 := putP st .dsCount (.pI reg.ds18b20List.length)
  let st2 := saveEntries saveSensorAt reg.ds18b20List 0 st1
  let st3 := putP st2 .alarmCount (.pI reg.alarms.length)
  let st4 := saveEntries saveAlarmAt reg.alarms 0 st3
  let st5 := putP st4 .whCount (.pI reg.webhooks.length)
  saveEntries saveWebhookAt reg.webhooks 0 st5

/-- One iteration of the sensor-loading loop.  The address is decoded only
when the stored string is nonempty, otherwise the zero-initialized global
array is left as is; `lastReading` is reset to the `-127.0` disconnected
sentinel. -/
def loadSensorAt (st : Store) (i : Nat) : DS18B20Sensor :=
  let addrStr := getStringD st (.ds i .addr) ""
  { address := if addrStr.length > 0 then stringToAddress addrStr
               else List.replicate 8 0
    id := getStringD st (.ds i .id) ""
    name := getStringD st (.ds i .name) ""
    enabled := getBoolD st (.ds i .en) true
    lastReading := -127 }

/-- One iteration of the alarm-loading loop; `lastTriggered` reset to 0. -/
def loadAlarmAt (st : Store) (i : Nat) : Alarm :=
  { id := getStringD st (.al i .id) ""
    name := getStringD st (.al i .name) ""
    sensorType := stringToSensorType (getStringD st (.al i .type) "")
    sensorId := getStringD st (.al i .sid) ""
    minValue := getFloatD st (.al i .min) (-999)
    maxValue := getFloatD st (.al i .max) 999
    enabled := getBoolD st (.al i .en) true
    webhookUrl := getStringD st (.al i .url) ""
    cooldownMs := getULongD st (.al i .cd) 60000
    lastTriggered := 0 }

/-- One iteration of the webhook-loading loop; `lastUpdate` reset to 0. -/
def loadWebhookAt (st : Store) (i : Nat) : WebhookConfig :=
  { id := getStringD st (.wh i .id) ""
    name := getStringD st (.wh i .name) ""
    url := getStringD st (.wh i .url) ""
    enabled := getBoolD st (.wh i .en) true
    updateIntervalMs := getULongD st (.wh i .int) 0
    lastUpdate := 0 }

/-- Model of `loadConfiguration`: read the three counts and then each indexed record. -/
def loadConfiguration (st : Store) : RegState :=
  { ds18b20List := (List.range (getIntD st .dsCount 0).toNat).map (loadSensorAt st)
    alarms := (List.range (getIntD st .alarmCount 0).toNat).map (loadAlarmAt st)
    webhooks := (List.range (getIntD st .whCount 0).toNat).map (loadWebhookAt st) }

/-- The registry with every runtime-only field reset to its sentinel:
`lastReading := -127.0`, `lastTriggered := 0`, `lastUpdate := 0`.  (This is
the state the spec says a save/load round trip must reproduce.) -/
def resetRuntime (reg : RegState) : RegState :=
  { ds18b20List := reg.ds18b20List.map fun sen => { sen with lastReading := -127 }
    alarms := reg.alarms.map fun a => { a with lastTriggered := 0 }
    webhooks := reg.webhooks.map fun w => { w with lastUpdate := 0 } }

/-! ### REST handlers -/

/-- An HTTP reply `server.send(status, "text/plain", body)`. -/
structure HttpResponse where
  status : Nat
  body : String
deriving DecidableEq

/-- Parsed body of `/api/add-ds18b20`. -/
structure AddSensorReq where
  address : String
  id : String
  name : String

/-- Parsed body of `/api/alarm/add`; `enabled` and `cooldown_ms` are
`Option` because the sketch reads them with the ArduinoJson `|` defaults
(`| true`, `| 60000`). -/
structure AddAlarmReq where
  id : String
  name : String
  sensor_type : String
  sensor_id : String
  min_value : Value
  max_value : Value
  enabled : Option Bool
  webhook_url : String
  cooldown_ms : Option Nat

/-- Parsed body of `/api/webhook/add` (`| true`, `| 0` defaults). -/
structure AddWebhookReq where
  id : String
  name : String
  url : String
  enabled : Option Bool
  update_interval_ms : Option Nat

/-- Parsed body of `/api/remove-ds18b20`. -/
structure RemoveSensorReq where
  address : String

/-- Parsed body of `/api/alarm/delete` and `/api/webhook/delete`. -/
structure DeleteReq where
  id : String

/-- The entry `handleAddDS18B20` writes at index `ds18b20Count`. -/
def mkSensorFromReq (r : AddSensorReq) : DS18B20Sensor :=
  { address := stringToAddress r.address
    id := r.id
    name := r.name
    enabled := true
    lastReading := -127 }

/-- The entry `handleAddAlarm` writes at index `alarmCount`. -/
def mkAlarmFromReq (r : AddAlarmReq) : Alarm :=
  { id := r.id
    name := r.name
    sensorType := stringToSensorType r.sensor_type
    sensorId := r.sensor_id
    minValue := r.min_value
    maxValue := r.max_value
    enabled := r.enabled.getD true
    webhookUrl := r.webhook_url
    lastTriggered := 0
    cooldownMs := r.cooldown_ms.getD 60000 }

/-- The entry `handleAddWebhook` writes at index `webhookCount`. -/
def mkWebhookFromReq (r : AddWebhookReq) : WebhookConfig :=
  { id := r.id
    name := r.name
    url := r.url
    enabled := r.enabled.getD true
    updateIntervalMs := r.update_interval_ms.getD 0
    lastUpdate := 0 }

/-- Model of `handleAddDS18B20`: capacity check, then append and write-through save.
`none` models a request without a JSON body (`!server.hasArg("plain")`). -/
def handleAddDS18B20 (s : HubState) (req : Option AddSensorReq) :
    HubState × HttpResponse :=
  if s.ds18b20List.length ≥ MAX_DS18B20_SENSORS then
    (s, ⟨400, "Maximum sensors reached"⟩)
  else
    match req with
    | some r =>
      let s2 := { s with ds18b20List := s.ds18b20List ++ [mkSensorFromReq r] }
      ({ s2 with prefs := saveConfiguration s2.reg s2.prefs },
        ⟨200, "Sensor added successfully"⟩)
    | none => (s, ⟨400, "Invalid request"⟩)

/-- Model of `handleAddAlarm`: capacity check, then append and write-through save. -/
def handleAddAlarm (s : HubState) (req : Option AddAlarmReq) :
    HubState × HttpResponse :=
  if s.alarms.length ≥ MAX_ALARMS then
    (s, ⟨400, "Maximum alarms reached"⟩)
  else
    match req with
    | some r =>
      let s2 := { s with alarms := s.alarms ++ [mkAlarmFromReq r] }
      ({ s2 with prefs := saveConfiguration s2.reg s2.prefs },
        ⟨200, "Alarm added successfully"⟩)
    | none => (s, ⟨400, "Invalid request"⟩)

/-- Model of `handleAddWebhook`: capacity check, then append and write-through save. -/
def handleAddWebhook (s : HubState) (req : Option AddWebhookReq) :
    HubState × HttpResponse :=
  if s.webhooks.length ≥ MAX_WEBHOOKS then
    (s, ⟨400, "Maximum webhooks reached"⟩)
  else
    match req with
    | some r =>
      let s2 := { s with webhooks := s.webhooks ++ [mkWebhookFromReq r] }
      ({ s2 with prefs := saveConfiguration s2.reg s2.prefs },
        ⟨200, "Webhook added successfully"⟩)
    | none => (s, ⟨400, "Invalid request"⟩)

/-- The find-first-match-then-shift-left removal loop shared by the three
delete handlers: `none` when nothing matches, otherwise the list with
exactly the first matching entry removed and the rest kept in order. -/
def removeFirst {α : Type} (p : α → Bool) : List α → Option (List α)
  | [] => none
  | x :: xs => if p x then some xs else (removeFirst p xs).map (x :: ·)

/-- Model of `handleRemoveDS18B20`: keyed by the formatted bus address. -/
def handleRemoveDS18B20 (s : HubState) (req : Option RemoveSensorReq) :
    HubState × HttpResponse :=
  match req with
  | none => (s, ⟨400, "Invalid request"⟩)
  | some r =>
    match removeFirst (fun sen => addressToString sen.address == r.address)
        s.ds18b20List with
    | some l =>
      let s2 := { s with ds18b20List := l }
      ({ s2 with prefs := saveConfiguration s2.reg s2.prefs },
        ⟨200, "Sensor removed"⟩)
    | none => (s, ⟨404, "Sensor not found"⟩)

/-- Model of `handleDeleteAlarm`: keyed by the alarm id. -/
def handleDeleteAlarm (s : HubState) (req : Option DeleteReq) :
    HubState × HttpResponse :=
  match req with
  | none => (s, ⟨400, "Invalid request"⟩)
  | some r =>
    match removeFirst (fun a => a.id == r.id) s.alarms with
    | some l =>
      let s2 := { s with alarms := l }
      ({ s2 with prefs := saveConfiguration s2.reg s2.prefs },
        ⟨200, "Alarm deleted"⟩)
    | none => (s, ⟨404, "Alarm not found"⟩)

/-- Model of `handleDeleteWebhook`: keyed by the webhook id. -/
def handleDeleteWebhook (s : HubState) (req : Option DeleteReq) :
    HubState × HttpResponse :=
  match req with
  | none => (s, ⟨400, "Invalid request"⟩)
  | some r =>
    match removeFirst (fun w => w.id == r.id) s.webhooks with
    | some l =>
      let s2 := { s with webhooks := l }
      ({ s2 with prefs := saveConfiguration s2.reg s2.prefs },
        ⟨200, "Webhook deleted"⟩)
    | none => (s, ⟨404, "Webhook not found"⟩)

/-! ### Concrete states used by witnesses and counterexamples -/

/-- An empty store (first boot, nothing persisted). -/
def store0 : Store := fun _ => none

/-- A base global state with empty collections and quiet channels. -/
def hub0 : HubState :=
  { ds18b20List := []
    alarms := []
    webhooks := []
    dhtTemperature := 0
    dhtHumidity := 0
    motionDetected := 0
    lightLevel := 0
    relayState := false
    ledState := false
    prefs := store0 }

/-- An alarm bound to a DS18B20 id that is not registered. -/
def aC2 : Alarm :=
  { id := "ghost_alarm"
    name := "Ghost"
    sensorType := .ds18b20
    sensorId := "ghost"
    minValue := 0
    maxValue := 100
    enabled := true
    webhookUrl := "http://sink"
    lastTriggered := 0
    cooldownMs := 60000 }

/-- State holding only the dangling alarm `aC2`. -/
def sC2 : HubState := { hub0 with alarms := [aC2] }

/-- A disabled DS18B20 sensor with a stored reading. -/
def senC3 : DS18B20Sensor :=
  { address := [40, 170, 1, 2, 3, 4, 5, 6]
    id := "probe"
    name := "Probe"
    enabled := false
    lastReading := 25 }

/-- State holding only the disabled sensor `senC3`. -/
def sC3 : HubState := { hub0 with ds18b20List := [senC3] }

/-- An alarm with out-of-order bounds (`minValue > maxValue`). -/
def aC4 : Alarm :=
  { id := "inverted"
    name := "Inverted"
    sensorType := .dht_temp
    sensorId := "dht_temp"
    minValue := 10
    maxValue := 5
    enabled := true
    webhookUrl := "http://sink"
    lastTriggered := 0
    cooldownMs := 60000 }

/-- State with an ambient temperature of 7, strictly between `aC4.maxValue`
and `aC4.minValue`. -/
def sC4 : HubState := { hub0 with dhtTemperature := 7, alarms := [aC4] }

/-- A fresh high-temperature alarm, created at system start
(`lastTriggered = 0`), cooldown one minute. -/
def aC5 : Alarm :=
  { id := "hi_temp"
    name := "High temp"
    sensorType := .dht_temp
    sensorId := "dht_temp"
    minValue := -999
    maxValue := 30
    enabled := true
    webhookUrl := "http://sink"
    lastTriggered := 0
    cooldownMs := 60000 }

/-- State whose ambient temperature (31) is above `aC5.maxValue` on every
tick. -/
def sC5 : HubState := { hub0 with dhtTemperature := 31, alarms := [aC5] }

/-- An existing alarm with id "dup". -/
def aC1 : Alarm :=
  { id := "dup"
    name := "First"
    sensorType := .dht_temp
    sensorId := "dht_temp"
    minValue := 0
    maxValue := 50
    enabled := true
    webhookUrl := "http://sink"
    lastTriggered := 0
    cooldownMs := 60000 }

/-- State already holding the alarm with id "dup". -/
def sC1 : HubState := { hub0 with alarms := [aC1] }

/-- An add request reusing the already-taken alarm id "dup". -/
def rC1 : AddAlarmReq :=
  { id := "dup"
    name := "Second"
    sensor_type := "dht_temp"
    sensor_id := "dht_temp"
    min_value := 0
    max_value := 50
    enabled := some true
    webhook_url := "http://sink"
    cooldown_ms := some 60000 }

/-- A sensor add request for the witnesses. -/
def rAddSensor : AddSensorReq :=
  { address := "28:AA:01:02:03:04:05:06", id := "pool", name := "Pool" }

/-- A webhook add request for the witnesses. -/
def rAddWebhook : AddWebhookReq :=
  { id := "wh1"
    name := "Hook"
    url := "http://sink"
    enabled := some true
    update_interval_ms := some 5000 }

/-- A generic enabled sensor used to build full collections. -/
def senC8 : DS18B20Sensor :=
  { address := [1, 2, 3, 4, 5, 6, 7, 8]
    id := "s"
    name := "S"
    enabled := true
    lastReading := 20 }

/-- A generic webhook entry. -/
def wC8 : WebhookConfig :=
  { id := "w"
    name := "W"
    url := "http://sink"
    enabled := true
    updateIntervalMs := 5000
    lastUpdate := 0 }

/-- A state at capacity in all three collections (8 sensors, 16 alarms,
8 webhooks). -/
def sC8full : HubState :=
  { hub0 with
    ds18b20List := List.replicate 8 senC8
    alarms := List.replicate 16 aC1
    webhooks := List.replicate 8 wC8 }

/-- State with one sensor, one alarm and one webhook, for the remove
claims; the alarm references the sensor id "pool". -/
def senC9 : DS18B20Sensor :=
  { address := [40, 170, 1, 2, 3, 4, 5, 6]
    id := "pool"
    name := "Pool"
    enabled := true
    lastReading := 24 }

/-- An alarm referencing the bus sensor "pool". -/
def aC9 : Alarm :=
  { id := "pool_high"
    name := "Pool high"
    sensorType := .ds18b20
    sensorId := "pool"
    minValue := -999
    maxValue := 30
    enabled := true
    webhookUrl := "http://sink"
    lastTriggered := 0
    cooldownMs := 60000 }

/-- One-of-each state used by the remove witnesses. -/
def sC9 : HubState :=
  { hub0 with ds18b20List := [senC9], alarms := [aC9], webhooks := [wC8] }

/-- An enabled scheduled webhook with a 5000 ms interval, fresh
(`lastUpdate = 0`). -/
def wC6 : WebhookConfig :=
  { id := "sched"
    name := "Sched"
    url := "http://sink"
    enabled := true
    updateIntervalMs := 5000
    lastUpdate := 0 }

/-- An enabled scheduled webhook with interval 0 (never auto-fires). -/
def wC6z : WebhookConfig :=
  { id := "off"
    name := "Off"
    url := "http://sink"
    enabled := true
    updateIntervalMs := 0
    lastUpdate := 0 }

/-! ### Basic lemmas -/

theorem usub_of_le {a b : Nat} (hba : b ≤ a) (ha : a < ULONG_MOD) :
    usub a b = a - b := by
  have hb : b < ULONG_MOD := lt_of_le_of_lt hba ha
  unfold usub ULONG_MOD at *
  rw [Nat.mod_eq_of_lt ha, Nat.mod_eq_of_lt hb]
  omega

theorem usub_zero {a : Nat} (ha : a < ULONG_MOD) : usub a 0 = a := by
  rw [usub_of_le (Nat.zero_le a) ha, Nat.sub_zero]

/-- A disabled alarm is skipped and left untouched. -/
theorem checkAlarm1_disabled (s : HubState) (sink : Bool) (now : Nat) (a : Alarm)
    (hen : a.enabled = false) : checkAlarm1 s sink now a = (a, none) := by
  simp [checkAlarm1, hen]

/-- The triggering branch of `checkAlarm1`. -/
theorem checkAlarm1_emit (s : HubState) (sink : Bool) (now : Nat) (a : Alarm)
    (hen : a.enabled = true)
    (htrig : getSensorValue s a.sensorType a.sensorId < a.minValue ∨
      getSensorValue s a.sensorType a.sensorId > a.maxValue)
    (hcd : usub now a.lastTriggered > a.cooldownMs) :
    checkAlarm1 s sink now a =
      ({ a with lastTriggered := now },
        some { url := a.webhookUrl
               event := "alarm_triggered"
               crossed := if getSensorValue s a.sensorType a.sensorId < a.minValue
                 then .belowMin else .aboveMax
               sensorId := a.sensorId
               value := getSensorValue s a.sensorType a.sensorId
               device := "ESP32"
               timestamp := now }) := by
  simp only [checkAlarm1, hen, Bool.not_true, Bool.false_eq_true, if_false]
  rw [if_pos ⟨htrig, hcd⟩]

/-- The non-triggering branch of `checkAlarm1` for an enabled alarm. -/
theorem checkAlarm1_skip (s : HubState) (sink : Bool) (now : Nat) (a : Alarm)
    (hen : a.enabled = true)
    (h : ¬((getSensorValue s a.sensorType a.sensorId < a.minValue ∨
      getSensorValue s a.sensorType a.sensorId > a.maxValue) ∧
      usub now a.lastTriggered > a.cooldownMs)) :
    checkAlarm1 s sink now a = (a, none) := by
  simp only [checkAlarm1, hen, Bool.not_true, Bool.false_eq_true, if_false]
  rw [if_neg h]

/-- The Notification Sink response changes nothing in alarm evaluation (it
is only printed by the sketch). -/
theorem checkAlarm1_sink_irrelevant (s : HubState) (sink : Bool) (now : Nat)
    (a : Alarm) : checkAlarm1 s sink now a = checkAlarm1 s true now a := rfl

/-- A bus-sensor lookup over a list with no matching id yields `-999.0`. -/
theorem getSensorValue_not_found (s : HubState) (sid : String)
    (h : ∀ sen ∈ s.ds18b20List, sen.id ≠ sid) :
    getSensorValue s .ds18b20 sid = -999 := by
  have : s.ds18b20List.find? (fun sen => sen.id == sid) = none := by
    rw [List.find?_eq_none]
    intro sen hmem
    simpa using h sen hmem
  simp [getSensorValue, this]

/-- A bus-sensor lookup returns the `lastReading` of the first entry whose
id matches, whatever its `enabled` flag. -/
theorem getSensorValue_found_first (s : HubState) (sid : String)
    (pre : List DS18B20Sensor) (sen : DS18B20Sensor) (post : List DS18B20Sensor)
    (hsplit : s.ds18b20List = pre ++ sen :: post)
    (hpre : ∀ y ∈ pre, y.id ≠ sid) (hsen : sen.id = sid) :
    getSensorValue s .ds18b20 sid = sen.lastReading := by
  have hfind : s.ds18b20List.find? (fun x => x.id == sid) = some sen := by
    rw [hsplit, List.find?_append]
    have h1 : pre.find? (fun x => x.id == sid) = none := by
      rw [List.find?_eq_none]
      intro y hy
      simpa using hpre y hy
    rw [h1]
    simp [List.find?_cons, hsen]
  simp [getSensorValue, hfind]

/-- The loop `removeFirst` finds nothing when no entry matches. -/
theorem removeFirst_eq_none {α : Type} (p : α → Bool) (l : List α)
    (h : ∀ x ∈ l, p x = false) : removeFirst p l = none := by
  induction l with
  | nil => rfl
  | cons x xs ih =>
    simp [removeFirst, h x (List.mem_cons_self x xs),
      ih fun y hy => h y (List.mem_cons_of_mem x hy)]

/-- The loop `removeFirst` removes exactly the first matching entry and keeps the
remaining entries in their previous relative order. -/
theorem removeFirst_spec {α : Type} (p : α → Bool) (l : List α)
    (h : ∃ x ∈ l, p x = true) :
    ∃ pre x post, l = pre ++ x :: post ∧ (∀ y ∈ pre, p y = false) ∧
      p x = true ∧ removeFirst p l = some (pre ++ post) := by
  induction l with
  | nil => simp at h
  | cons a as ih =>
    by_cases hpa : p a = true
    · exact ⟨[], a, as, rfl, by simp, hpa, by simp [removeFirst, hpa]⟩
    · have hpa' : p a = false := by
        cases hval : p a with
        | false => rfl
        | true => exact absurd hval hpa
      have h' : ∃ x ∈ as, p x = true := by
        rcases h with ⟨x, hx, hpx⟩
        rcases List.mem_cons.1 hx with rfl | hmem
        · exact absurd hpx hpa
        · exact ⟨x, hmem, hpx⟩
      rcases ih h' with ⟨pre, x, post, heq, hpre, hpx, hrm⟩
      refine ⟨a :: pre, x, post, by simp [heq], ?_, hpx, ?_⟩
      · intro y hy
        rcases List.mem_cons.1 hy with rfl | hy2
        · exact hpa'
        · exact hpre y hy2
      · simp [removeFirst, hpa', hrm]

/-! ### C2: alarms on unavailable readings -/

set_option maxRecDepth 4000 in
/-- C2 counterexample: an enabled alarm whose bus-sensor lookup fails (the
not-available case) is NOT skipped: on a tick past its cooldown the `-999.0`
sentinel participates in the threshold test, a below-minimum notification is
emitted and `lastTriggered` is updated. -/
theorem checkAlarms_unavailable_not_skipped_cex :
    (checkAlarms sC2 true 70000).2 =
      [{ url := "http://sink"
         event := "alarm_triggered"
         crossed := .belowMin
         sensorId := "ghost"
         value := -999
         device := "ESP32"
         timestamp := 70000 }] ∧
    (checkAlarms sC2 true 70000).1.alarms = [{ aC2 with lastTriggered := 70000 }] := by
  decide

/-- C2 (amended): an alarm whose bound value resolves to the not-available
sentinel is evaluated like any other: when the sentinel `-999.0` is below
`minValue` and the cooldown has elapsed, a notification carrying value
`-999` is emitted and the cooldown state `lastTriggered` IS updated. -/
theorem checkAlarm_unavailable_amended (s : HubState) (sink : Bool) (now : Nat)
    (a : Alarm) (hen : a.enabled = true) (hty : a.sensorType = .ds18b20)
    (hmiss : ∀ sen ∈ s.ds18b20List, sen.id ≠ a.sensorId)
    (hmin : -999 < a.minValue)
    (hcd : usub now a.lastTriggered > a.cooldownMs) :
    (checkAlarm1 s sink now a).2 =
      some { url := a.webhookUrl
             event := "alarm_triggered"
             crossed := .belowMin
             sensorId := a.sensorId
             value := -999
             device := "ESP32"
             timestamp := now } ∧
    (checkAlarm1 s sink now a).1.lastTriggered = now := by
  have hv : getSensorValue s a.sensorType a.sensorId = -999 := by
    rw [hty]
    exact getSensorValue_not_found s a.sensorId hmiss
  have hlt : getSensorValue s a.sensorType a.sensorId < a.minValue := by
    rw [hv]; exact hmin
  rw [checkAlarm1_emit s sink now a hen (Or.inl hlt) hcd]
  simp [hv, hmin]

set_option maxRecDepth 4000 in
/-- C2 witness: the amended statement at the concrete dangling alarm. -/
theorem checkAlarm_unavailable_amended_witness :
    (checkAlarm1 sC2 true 70000 aC2).2 =
      some { url := aC2.webhookUrl
             event := "alarm_triggered"
             crossed := .belowMin
             sensorId := aC2.sensorId
             value := -999
             device := "ESP32"
             timestamp := 70000 } ∧
    (checkAlarm1 sC2 true 70000 aC2).1.lastTriggered = 70000 :=
  checkAlarm_unavailable_amended sC2 true 70000 aC2 rfl rfl (by decide)
    (by decide) (by decide)

/-! ### C3: bus-sensor value resolution -/

/-- C3 counterexample: a sensor that exists but has `enabled = false` does
NOT resolve to the unavailable sentinel: `getSensorValue` ignores the
`enabled` flag and returns its `lastReading`. -/
theorem getSensorValue_disabled_cex :
    getSensorValue sC3 .ds18b20 "probe" = 25 ∧
    getSensorValue sC3 .ds18b20 "probe" ≠ -999 := by
  decide

/-- C3 (amended): a bus-kind sample returns `-999.0` when no sensor has the
requested id, and otherwise the `lastReading` of the first matching sensor
regardless of its `enabled` flag; `-999.0` is an ordinary float value, not
a reserved sentinel distinct from all valid readings. -/
theorem getSensorValue_bus_amended (s : HubState) (sid : String) :
    ((∀ sen ∈ s.ds18b20List, sen.id ≠ sid) →
      getSensorValue s .ds18b20 sid = -999) ∧
    (∀ pre sen post, s.ds18b20List = pre ++ sen :: post →
      (∀ y ∈ pre, y.id ≠ sid) → sen.id = sid →
      getSensorValue s .ds18b20 sid = sen.lastReading) := by
  constructor
  · exact getSensorValue_not_found s sid
  · intro pre sen post hsplit hpre hsen
    exact getSensorValue_found_first s sid pre sen post hsplit hpre hsen

/-- C3 witness: both branches of the amended statement at concrete inputs
(an unknown id, and the disabled sensor `senC3`). -/
theorem getSensorValue_bus_amended_witness :
    getSensorValue sC3 .ds18b20 "ghost" = -999 ∧
    getSensorValue sC3 .ds18b20 "probe" = senC3.lastReading :=
  ⟨(getSensorValue_bus_amended sC3 "ghost").1 (by decide),
   (getSensorValue_bus_amended sC3 "probe").2 [] senC3 [] rfl (by simp) rfl⟩

/-! ### C4: out-of-order bounds -/

set_option maxRecDepth 4000 in
/-- C4 counterexample: an enabled alarm with `minValue = 10 > maxValue = 5`
DOES emit a notification (here for the in-between reading 7, once the
cooldown has elapsed) — out-of-order bounds do not make the alarm silent. -/
theorem checkAlarm_inverted_bounds_cex :
    aC4.minValue > aC4.maxValue ∧
    (checkAlarm1 sC4 true 70000 aC4).2.isSome = true := by
  decide

/-- C4 (amended): for an enabled alarm with `minValue > maxValue` every
resolved reading satisfies `value < minValue ∨ value > maxValue`, so the
alarm triggers on EVERY tick whose cooldown test passes (the opposite of
never triggering). -/
theorem checkAlarm_inverted_bounds_amended (s : HubState) (sink : Bool)
    (now : Nat) (a : Alarm) (hen : a.enabled = true)
    (hinv : a.maxValue < a.minValue)
    (hcd : usub now a.lastTriggered > a.cooldownMs) :
    ∃ n, (checkAlarm1 s sink now a).2 = some n ∧
      n.value = getSensorValue s a.sensorType a.sensorId ∧
      (checkAlarm1 s sink now a).1.lastTriggered = now := by
  rcases lt_or_le (getSensorValue s a.sensorType a.sensorId) a.minValue with hlt | hge
  · rw [checkAlarm1_emit s sink now a hen (Or.inl hlt) hcd]
    exact ⟨_, rfl, rfl, rfl⟩
  · have hgt : getSensorValue s a.sensorType a.sensorId > a.maxValue :=
      lt_of_lt_of_le hinv hge
    rw [checkAlarm1_emit s sink now a hen (Or.inr hgt) hcd]
    exact ⟨_, rfl, rfl, rfl⟩

/-- C4 witness: the amended statement at the concrete inverted-bounds
alarm. -/
theorem checkAlarm_inverted_bounds_amended_witness :
    ∃ n, (checkAlarm1 sC4 true 70000 aC4).2 = some n ∧
      n.value = getSensorValue sC4 aC4.sensorType aC4.sensorId ∧
      (checkAlarm1 sC4 true 70000 aC4).1.lastTriggered = 70000 :=
  checkAlarm_inverted_bounds_amended sC4 true 70000 aC4 rfl (by decide) (by decide)

/-! ### C5: alarm cooldown timing -/

/-- C5 counterexample: the fresh alarm `aC5` (created at system start, so
`lastTriggered = 0`, `cooldownMs = 60000`) sees an out-of-bound reading at
t = 0 and emits NO notification there, because
`millis() - lastTriggered > cooldownMs` is `0 > 60000`. -/
theorem checkAlarm_cooldown_t0_cex :
    aC5.maxValue < getSensorValue sC5 aC5.sensorType aC5.sensorId ∧
    (checkAlarm1 sC5 true 0 aC5).2 = none := by
  decide

/-- C5 (amended): for an enabled alarm created at system start
(`lastTriggered = 0`) with `cooldownMs = 60000` and a sustained out-of-bound
reading: no notification is emitted at any tick with t ≤ 60000 (in
particular not at t = 0); the first notification fires at the first tick
with t > 60000 (t = 60001 when ticked every millisecond) and sets
`lastTriggered := t`; after a trigger at time t, ticks within the next
60000 ms emit nothing and a tick with elapsed time > 60000 emits again; and
all of this is independent of the Notification Sink response. -/
theorem checkAlarm_cooldown_amended (s : HubState) (sink : Bool) (a : Alarm)
    (hen : a.enabled = true) (hlast : a.lastTriggered = 0)
    (hcd : a.cooldownMs = 60000)
    (hoob : getSensorValue s a.sensorType a.sensorId < a.minValue ∨
      getSensorValue s a.sensorType a.sensorId > a.maxValue) :
    (∀ t, t ≤ 60000 → checkAlarm1 s sink t a = (a, none)) ∧
    (∀ t, 60000 < t → t < ULONG_MOD →
      (checkAlarm1 s sink t a).2.isSome = true ∧
      (checkAlarm1 s sink t a).1 = { a with lastTriggered := t }) ∧
    (∀ t u, 60000 < t → t < ULONG_MOD → u < ULONG_MOD →
      (usub u t ≤ 60000 →
        checkAlarm1 s sink u ((checkAlarm1 s sink t a).1) =
          ((checkAlarm1 s sink t a).1, none)) ∧
      (60000 < usub u t →
        (checkAlarm1 s sink u ((checkAlarm1 s sink t a).1)).2.isSome = true)) ∧
    (∀ t, checkAlarm1 s sink t a = checkAlarm1 s true t a) := by
  have hfire : ∀ t, 60000 < t → t < ULONG_MOD →
      checkAlarm1 s sink t a =
        ({ a with lastTriggered := t },
          some { url := a.webhookUrl
                 event := "alarm_triggered"
                 crossed := if getSensorValue s a.sensorType a.sensorId < a.minValue
                   then .belowMin else .aboveMax
                 sensorId := a.sensorId
                 value := getSensorValue s a.sensorType a.sensorId
                 device := "ESP32"
                 timestamp := t }) := by
    intro t ht hlt
    refine checkAlarm1_emit s sink t a hen hoob ?_
    rw [hlast, usub_zero hlt, hcd]
    exact ht
  refine ⟨?_, ?_, ?_, fun t => checkAlarm1_sink_irrelevant s sink t a⟩
  · intro t ht
    refine checkAlarm1_skip s sink t a hen ?_
    rintro ⟨-, hgt⟩
    rw [hlast, hcd] at hgt
    have hlt : t < ULONG_MOD := lt_of_le_of_lt ht (by norm_num [ULONG_MOD])
    rw [usub_zero hlt] at hgt
    omega
  · intro t ht hlt
    rw [hfire t ht hlt]
    exact ⟨rfl, rfl⟩
  · intro t u ht hlt hu
    rw [hfire t ht hlt]
    constructor
    · intro hle
      refine checkAlarm1_skip s sink u { a with lastTriggered := t } hen ?_
      rintro ⟨-, hgt⟩
      have hgt2 : usub u t > 60000 := by simpa [hcd] using hgt
      omega
    · intro hgt
      have hg : usub u ({ a with lastTriggered := t } : Alarm).lastTriggered >
          ({ a with lastTriggered := t } : Alarm).cooldownMs := by
        simpa [hcd] using hgt
      rw [checkAlarm1_emit s sink u { a with lastTriggered := t } hen hoob hg]
      rfl

/-- C5 witness: the amended statement at the concrete alarm `aC5`:
no notification at t = 0, first notification at t = 60001. -/
theorem checkAlarm_cooldown_amended_witness :
    checkAlarm1 sC5 true 0 aC5 = (aC5, none) ∧
    (checkAlarm1 sC5 true 60001 aC5).2.isSome = true :=
  ⟨(checkAlarm_cooldown_amended sC5 true aC5 rfl rfl rfl (by decide)).1 0
      (by decide),
   ((checkAlarm_cooldown_amended sC5 true aC5 rfl rfl rfl (by decide)).2.1 60001
      (by decide) (by decide)).1⟩

/-! ### C1: duplicate ids on add -/

set_option maxRecDepth 4000 in
/-- C1 counterexample: adding an alarm whose id "dup" is already taken is
NOT rejected: the handler answers 200 "Alarm added successfully" and the
collection ends up holding two entries with id "dup". -/
theorem add_duplicate_id_cex :
    (handleAddAlarm sC1 (some rC1)).2 = ⟨200, "Alarm added successfully"⟩ ∧
    ((handleAddAlarm sC1 (some rC1)).1.alarms.filter
      (fun a => a.id == "dup")).length = 2 := by
  decide

/-- C1 (amended): none of the three add handlers checks for an existing id:
below capacity, an add with a well-formed body always succeeds and appends
an entry carrying the requested id, so the number of entries with that id
grows by one even when it was already present (duplicate ids are
creatable). -/
theorem add_no_duplicate_check_amended (s : HubState) (r1 : AddSensorReq)
    (r2 : AddAlarmReq) (r3 : AddWebhookReq) :
    (s.ds18b20List.length < MAX_DS18B20_SENSORS →
      (handleAddDS18B20 s (some r1)).2 = ⟨200, "Sensor added successfully"⟩ ∧
      ((handleAddDS18B20 s (some r1)).1.ds18b20List.filter
        (fun x => x.id == r1.id)).length =
        (s.ds18b20List.filter (fun x => x.id == r1.id)).length + 1) ∧
    (s.alarms.length < MAX_ALARMS →
      (handleAddAlarm s (some r2)).2 = ⟨200, "Alarm added successfully"⟩ ∧
      ((handleAddAlarm s (some r2)).1.alarms.filter
        (fun x => x.id == r2.id)).length =
        (s.alarms.filter (fun x => x.id == r2.id)).length + 1) ∧
    (s.webhooks.length < MAX_WEBHOOKS →
      (handleAddWebhook s (some r3)).2 = ⟨200, "Webhook added successfully"⟩ ∧
      ((handleAddWebhook s (some r3)).1.webhooks.filter
        (fun x => x.id == r3.id)).length =
        (s.webhooks.filter (fun x => x.id == r3.id)).length + 1) := by
  refine ⟨fun h => ?_, fun h => ?_, fun h => ?_⟩
  · simp [handleAddDS18B20, not_le.mpr h, List.filter_append, mkSensorFromReq]
  · simp [handleAddAlarm, not_le.mpr h, List.filter_append, mkAlarmFromReq]
  · simp [handleAddWebhook, not_le.mpr h, List.filter_append, mkWebhookFromReq]

set_option maxRecDepth 4000 in
/-- C1 witness: the amended statement at the concrete duplicate add. -/
theorem add_no_duplicate_check_amended_witness :
    (handleAddAlarm sC1 (some rC1)).2 = ⟨200, "Alarm added successfully"⟩ ∧
    ((handleAddAlarm sC1 (some rC1)).1.alarms.filter
      (fun x => x.id == rC1.id)).length =
      (sC1.alarms.filter (fun x => x.id == rC1.id)).length + 1 :=
  (add_no_duplicate_check_amended sC1 rAddSensor rC1 rAddWebhook).2.1 (by decide)

/-! ### C8: add capacity behaviour -/

/-- C8: each add below its collection's fixed capacity (8 sensors,
16 alarms, 8 webhooks) succeeds and grows the list by exactly one; an add
at capacity is answered with the capacity error and no part of the state —
collections or store — changes. -/
theorem add_capacity_bound (s : HubState) (r1 : AddSensorReq)
    (r2 : AddAlarmReq) (r3 : AddWebhookReq) :
    MAX_DS18B20_SENSORS = 8 ∧ MAX_ALARMS = 16 ∧ MAX_WEBHOOKS = 8 ∧
    (s.ds18b20List.length < MAX_DS18B20_SENSORS →
      (handleAddDS18B20 s (some r1)).1.ds18b20List.length =
        s.ds18b20List.length + 1 ∧
      (handleAddDS18B20 s (some r1)).2 = ⟨200, "Sensor added successfully"⟩) ∧
    (s.ds18b20List.length ≥ MAX_DS18B20_SENSORS →
      handleAddDS18B20 s (some r1) = (s, ⟨400, "Maximum sensors reached"⟩)) ∧
    (s.alarms.length < MAX_ALARMS →
      (handleAddAlarm s (some r2)).1.alarms.length = s.alarms.length + 1 ∧
      (handleAddAlarm s (some r2)).2 = ⟨200, "Alarm added successfully"⟩) ∧
    (s.alarms.length ≥ MAX_ALARMS →
      handleAddAlarm s (some r2) = (s, ⟨400, "Maximum alarms reached"⟩)) ∧
    (s.webhooks.length < MAX_WEBHOOKS →
      (handleAddWebhook s (some r3)).1.webhooks.length = s.webhooks.length + 1 ∧
      (handleAddWebhook s (some r3)).2 = ⟨200, "Webhook added successfully"⟩) ∧
    (s.webhooks.length ≥ MAX_WEBHOOKS →
      handleAddWebhook s (some r3) = (s, ⟨400, "Maximum webhooks reached"⟩)) := by
  refine ⟨rfl, rfl, rfl, fun h => ?_, fun h => ?_, fun h => ?_, fun h => ?_,
    fun h => ?_, fun h => ?_⟩
  · simp [handleAddDS18B20, not_le.mpr h]
  · simp [handleAddDS18B20, h]
  · simp [handleAddAlarm, not_le.mpr h]
  · simp [handleAddAlarm, h]
  · simp [handleAddWebhook, not_le.mpr h]
  · simp [handleAddWebhook, h]

set_option maxRecDepth 4000 in
/-- C8 witness: below-capacity adds on the empty state and at-capacity adds
on the full state, at concrete requests. -/
theorem add_capacity_bound_witness :
    ((handleAddDS18B20 hub0 (some rAddSensor)).1.ds18b20List.length =
      hub0.ds18b20List.length + 1 ∧
      (handleAddDS18B20 hub0 (some rAddSensor)).2 =
        ⟨200, "Sensor added successfully"⟩) ∧
    ((handleAddAlarm hub0 (some rC1)).1.alarms.length =
      hub0.alarms.length + 1 ∧
      (handleAddAlarm hub0 (some rC1)).2 = ⟨200, "Alarm added successfully"⟩) ∧
    ((handleAddWebhook hub0 (some rAddWebhook)).1.webhooks.length =
      hub0.webhooks.length + 1 ∧
      (handleAddWebhook hub0 (some rAddWebhook)).2 =
        ⟨200, "Webhook added successfully"⟩) ∧
    handleAddDS18B20 sC8full (some rAddSensor) =
      (sC8full, ⟨400, "Maximum sensors reached"⟩) ∧
    handleAddAlarm sC8full (some rC1) =
      (sC8full, ⟨400, "Maximum alarms reached"⟩) ∧
    handleAddWebhook sC8full (some rAddWebhook) =
      (sC8full, ⟨400, "Maximum webhooks reached"⟩) :=
  ⟨(add_capacity_bound hub0 rAddSensor rC1 rAddWebhook).2.2.2.1 (by decide),
   (add_capacity_bound hub0 rAddSensor rC1 rAddWebhook).2.2.2.2.2.1 (by decide),
   (add_capacity_bound hub0 rAddSensor rC1 rAddWebhook).2.2.2.2.2.2.2.1 (by decide),
   (add_capacity_bound sC8full rAddSensor rC1 rAddWebhook).2.2.2.2.1 (by decide),
   (add_capacity_bound sC8full rAddSensor rC1 rAddWebhook).2.2.2.2.2.2.1 (by decide),
   (add_capacity_bound sC8full rAddSensor rC1 rAddWebhook).2.2.2.2.2.2.2.2 (by decide)⟩

/-! ### C9: remove semantics -/

/-- C9: each of the three delete handlers answers 404 and leaves the state
untouched when no entry matches the key; when an entry matches, exactly the
first matching entry is removed, the remaining entries keep their previous
relative order, and the handler answers 200. -/
theorem remove_notfound_or_stable (s : HubState) (addr key1 key2 : String) :
    ((∀ sen ∈ s.ds18b20List, addressToString sen.address ≠ addr) →
      handleRemoveDS18B20 s (some ⟨addr⟩) = (s, ⟨404, "Sensor not found"⟩)) ∧
    ((∃ sen ∈ s.ds18b20List, addressToString sen.address = addr) →
      ∃ pre sen post, s.ds18b20List = pre ++ sen :: post ∧
        (∀ y ∈ pre, addressToString y.address ≠ addr) ∧
        addressToString sen.address = addr ∧
        (handleRemoveDS18B20 s (some ⟨addr⟩)).1.ds18b20List = pre ++ post ∧
        (handleRemoveDS18B20 s (some ⟨addr⟩)).2 = ⟨200, "Sensor removed"⟩) ∧
    ((∀ a ∈ s.alarms, a.id ≠ key1) →
      handleDeleteAlarm s (some ⟨key1⟩) = (s, ⟨404, "Alarm not found"⟩)) ∧
    ((∃ a ∈ s.alarms, a.id = key1) →
      ∃ pre a post, s.alarms = pre ++ a :: post ∧
        (∀ y ∈ pre, y.id ≠ key1) ∧ a.id = key1 ∧
        (handleDeleteAlarm s (some ⟨key1⟩)).1.alarms = pre ++ post ∧
        (handleDeleteAlarm s (some ⟨key1⟩)).2 = ⟨200, "Alarm deleted"⟩) ∧
    ((∀ w ∈ s.webhooks, w.id ≠ key2) →
      handleDeleteWebhook s (some ⟨key2⟩) = (s, ⟨404, "Webhook not found"⟩)) ∧
    ((∃ w ∈ s.webhooks, w.id = key2) →
      ∃ pre w post, s.webhooks = pre ++ w :: post ∧
        (∀ y ∈ pre, y.id ≠ key2) ∧ w.id = key2 ∧
        (handleDeleteWebhook s (some ⟨key2⟩)).1.webhooks = pre ++ post ∧
        (handleDeleteWebhook s (some ⟨key2⟩)).2 = ⟨200, "Webhook deleted"⟩) := by
  refine ⟨fun h => ?_, fun h => ?_, fun h => ?_, fun h => ?_, fun h => ?_,
    fun h => ?_⟩
  · have hnone : removeFirst (fun sen => addressToString sen.address == addr)
        s.ds18b20List = none :=
      removeFirst_eq_none _ _ fun x hx => beq_eq_false_iff_ne.mpr (h x hx)
    simp [handleRemoveDS18B20, hnone]
  · rcases h with ⟨sen0, hmem, heq⟩
    rcases removeFirst_spec (fun sen => addressToString sen.address == addr)
        s.ds18b20List ⟨sen0, hmem, beq_iff_eq.mpr heq⟩ with
      ⟨pre, x, post, hsplit, hpre, hpx, hrm⟩
    exact ⟨pre, x, post, hsplit,
      fun y hy => beq_eq_false_iff_ne.mp (hpre y hy), beq_iff_eq.mp hpx,
      by simp [handleRemoveDS18B20, hrm], by simp [handleRemoveDS18B20, hrm]⟩
  · have hnone : removeFirst (fun a => a.id == key1) s.alarms = none :=
      removeFirst_eq_none _ _ fun x hx => beq_eq_false_iff_ne.mpr (h x hx)
    simp [handleDeleteAlarm, hnone]
  · rcases h with ⟨a0, hmem, heq⟩
    rcases removeFirst_spec (fun a => a.id == key1) s.alarms
        ⟨a0, hmem, beq_iff_eq.mpr heq⟩ with
      ⟨pre, x, post, hsplit, hpre, hpx, hrm⟩
    exact ⟨pre, x, post, hsplit,
      fun y hy => beq_eq_false_iff_ne.mp (hpre y hy), beq_iff_eq.mp hpx,
      by simp [handleDeleteAlarm, hrm], by simp [handleDeleteAlarm, hrm]⟩
  · have hnone : removeFirst (fun w => w.id == key2) s.webhooks = none :=
      removeFirst_eq_none _ _ fun x hx => beq_eq_false_iff_ne.mpr (h x hx)
    simp [handleDeleteWebhook, hnone]
  · rcases h with ⟨w0, hmem, heq⟩
    rcases removeFirst_spec (fun w => w.id == key2) s.webhooks
        ⟨w0, hmem, beq_iff_eq.mpr heq⟩ with
      ⟨pre, x, post, hsplit, hpre, hpx, hrm⟩
    exact ⟨pre, x, post, hsplit,
      fun y hy => beq_eq_false_iff_ne.mp (hpre y hy), beq_iff_eq.mp hpx,
      by simp [handleDeleteWebhook, hrm], by simp [handleDeleteWebhook, hrm]⟩

set_option maxRecDepth 4000 in
/-- C9 witness: a non-matching remove leaves `sC9` untouched with 404, and
a matching alarm delete removes exactly that alarm with 200. -/
theorem remove_notfound_or_stable_witness :
    handleRemoveDS18B20 sC9 (some ⟨"FF:FF:FF:FF:FF:FF:FF:FF"⟩) =
      (sC9, ⟨404, "Sensor not found"⟩) ∧
    (∃ pre a post, sC9.alarms = pre ++ a :: post ∧
      (∀ y ∈ pre, y.id ≠ "pool_high") ∧ a.id = "pool_high" ∧
      (handleDeleteAlarm sC9 (some ⟨"pool_high"⟩)).1.alarms = pre ++ post ∧
      (handleDeleteAlarm sC9 (some ⟨"pool_high"⟩)).2 = ⟨200, "Alarm deleted"⟩) :=
  ⟨(remove_notfound_or_stable sC9 "FF:FF:FF:FF:FF:FF:FF:FF" "x" "y").1
      (by decide),
   (remove_notfound_or_stable sC9 "z" "pool_high" "y").2.2.2.1 (by decide)⟩

/-! ### C10: removal frame effect -/

/-- C10: removing a bus sensor leaves the alarm and webhook collections
untouched (all fields of every entry, including alarms whose `sensorId`
names the removed sensor), and a later bus-kind value resolution consults
only the remaining sensors, falling back to the `-999.0` not-found result
when no remaining sensor carries the id. -/
theorem remove_sensor_frame (s : HubState) (r : RemoveSensorReq) :
    (handleRemoveDS18B20 s (some r)).1.alarms = s.alarms ∧
    (handleRemoveDS18B20 s (some r)).1.webhooks = s.webhooks ∧
    (∀ sid, (∀ sen ∈ (handleRemoveDS18B20 s (some r)).1.ds18b20List,
        sen.id ≠ sid) →
      getSensorValue (handleRemoveDS18B20 s (some r)).1 .ds18b20 sid = -999) := by
  refine ⟨?_, ?_, fun sid h => getSensorValue_not_found _ sid h⟩ <;>
    · cases hrm : removeFirst (fun sen => addressToString sen.address == r.address)
        s.ds18b20List with
      | none => simp [handleRemoveDS18B20, hrm]
      | some l => simp [handleRemoveDS18B20, hrm]

set_option maxRecDepth 4000 in
/-- C10 witness: removing the only sensor of `sC9` leaves its dangling
alarm and its webhook untouched and makes the alarm's reference resolve to
`-999.0`. -/
theorem remove_sensor_frame_witness :
    (handleRemoveDS18B20 sC9 (some ⟨"28:AA:01:02:03:04:05:06"⟩)).1.alarms =
      sC9.alarms ∧
    (handleRemoveDS18B20 sC9 (some ⟨"28:AA:01:02:03:04:05:06"⟩)).1.webhooks =
      sC9.webhooks ∧
    getSensorValue (handleRemoveDS18B20 sC9
      (some ⟨"28:AA:01:02:03:04:05:06"⟩)).1 .ds18b20 aC9.sensorId = -999 :=
  ⟨(remove_sensor_frame sC9 ⟨"28:AA:01:02:03:04:05:06"⟩).1,
   (remove_sensor_frame sC9 ⟨"28:AA:01:02:03:04:05:06"⟩).2.1,
   (remove_sensor_frame sC9 ⟨"28:AA:01:02:03:04:05:06"⟩).2.2 aC9.sensorId
     (by decide)⟩

/-! ### Scheduler lemmas -/

/-- A webhook with `updateIntervalMs = 0` is skipped unconditionally. -/
theorem sendScheduled1_interval0 (s : HubState) (b : Bool) (t : Nat)
    (w : WebhookConfig) (h : w.updateIntervalMs = 0) :
    sendScheduled1 s b t w = (w, none) := by
  simp [sendScheduled1, h]

/-- The firing branch of the scheduler step. -/
theorem sendScheduled1_fire (s : HubState) (b : Bool) (t : Nat)
    (w : WebhookConfig) (hen : w.enabled = true) (hnz : w.updateIntervalMs ≠ 0)
    (hdue : usub t w.lastUpdate ≥ w.updateIntervalMs) :
    sendScheduled1 s b t w =
      ({ w with lastUpdate := t }, some (scheduledPayload s t w)) := by
  have hz : (w.updateIntervalMs == 0) = false := beq_eq_false_iff_ne.mpr hnz
  simp [sendScheduled1, hen, hz, hdue]

/-- The not-yet-due branch of the scheduler step. -/
theorem sendScheduled1_notdue (s : HubState) (b : Bool) (t : Nat)
    (w : WebhookConfig) (hen : w.enabled = true) (hnz : w.updateIntervalMs ≠ 0)
    (hdue : ¬ usub t w.lastUpdate ≥ w.updateIntervalMs) :
    sendScheduled1 s b t w = (w, none) := by
  have hz : (w.updateIntervalMs == 0) = false := beq_eq_false_iff_ne.mpr hnz
  simp [sendScheduled1, hen, hz, hdue]

/-- Splitting a trace at a list append. -/
theorem schedTrace_append (s : HubState) (b : Bool) (w : WebhookConfig)
    (ts us : List Nat) :
    schedTrace s b w (ts ++ us) =
      ((schedTrace s b (schedTrace s b w ts).1 us).1,
        (schedTrace s b w ts).2 ++ (schedTrace s b (schedTrace s b w ts).1 us).2) := by
  induction ts generalizing w with
  | nil => simp [schedTrace]
  | cons t ts ih => simp [schedTrace, ih]

/-- The lastUpdate / fired-times invariant of a fresh 5000 ms webhook run
at every tick `0, 1, ..., N-1`. -/
theorem schedTrace_range_5000 (s : HubState) (b : Bool) (wid wname wurl : String) :
    ∀ N, N ≤ ULONG_MOD →
      (schedTrace s b ⟨wid, wname, wurl, true, 5000, 0⟩ (List.range N)).1 =
        ⟨wid, wname, wurl, true, 5000, 5000 * ((N - 1) / 5000)⟩ ∧
      (schedTrace s b ⟨wid, wname, wurl, true, 5000, 0⟩ (List.range N)).2 =
        (List.range N).filter (fun t => t % 5000 == 0 && t != 0) := by
  intro N
  induction N with
  | zero =>
    intro _
    exact ⟨rfl, rfl⟩
  | succ N ih =>
    intro hN
    have hN1 : N < ULONG_MOD := hN
    obtain ⟨h1, h2⟩ := ih (le_of_lt hN1)
    rw [List.range_succ, schedTrace_append, h1, h2]
    have hle : 5000 * ((N - 1) / 5000) ≤ N := by omega
    have husub : usub N (5000 * ((N - 1) / 5000)) = N - 5000 * ((N - 1) / 5000) :=
      usub_of_le hle hN1
    by_cases hfire : N % 5000 = 0 ∧ N ≠ 0
    · have hdue : usub N ((⟨wid, wname, wurl, true, 5000,
          5000 * ((N - 1) / 5000)⟩ : WebhookConfig).lastUpdate) ≥
          (⟨wid, wname, wurl, true, 5000,
            5000 * ((N - 1) / 5000)⟩ : WebhookConfig).updateIntervalMs := by
        simp only
        rw [husub]
        omega
      have hstep := sendScheduled1_fire s b N
        ⟨wid, wname, wurl, true, 5000, 5000 * ((N - 1) / 5000)⟩ rfl
        (by norm_num) hdue
      simp only [schedTrace, hstep, Option.isSome_some, if_true, List.filter_append]
      have hupd : N = 5000 * ((N + 1 - 1) / 5000) := by omega
      have hpred : (fun t => t % 5000 == 0 && t != 0) N = true := by
        simp [hfire.1, hfire.2]
      constructor
      · simp only [← hupd]
      · simp [hpred]
    · have hnotdue : ¬ usub N ((⟨wid, wname, wurl, true, 5000,
          5000 * ((N - 1) / 5000)⟩ : WebhookConfig).lastUpdate) ≥
          (⟨wid, wname, wurl, true, 5000,
            5000 * ((N - 1) / 5000)⟩ : WebhookConfig).updateIntervalMs := by
        simp only
        rw [husub]
        omega
      have hstep := sendScheduled1_notdue s b N
        ⟨wid, wname, wurl, true, 5000, 5000 * ((N - 1) / 5000)⟩ rfl
        (by norm_num) hnotdue
      simp only [schedTrace, hstep, Option.isSome_none, if_false, List.filter_append]
      have hupd : 5000 * ((N - 1) / 5000) = 5000 * ((N + 1 - 1) / 5000) := by omega
      have hpred : (fun t => t % 5000 == 0 && t != 0) N = false := by
        rcases Decidable.not_and_iff_or_not.mp hfire with hmod | hzero
        · simp [hmod]
        · have : N = 0 := by omega
          simp [this]
      constructor
      · rw [← hupd]
      · simp [hpred]

/-! ### C6: scheduler timing -/

/-- C6 counterexample: a fresh enabled webhook with `updateIntervalMs =
5000` does NOT fire at t = 0 — the guard is `millis() - lastUpdate >=
interval`, i.e. `0 >= 5000`. -/
theorem scheduler_t0_cex :
    (sendScheduled1 hub0 true 0 wC6).2 = none ∧
    (sendScheduledWebhooks { hub0 with webhooks := [wC6] } true 0).2 = [] := by
  decide

/-- C6 (amended): a webhook with `updateIntervalMs = 0` never fires for any
elapsed time; a fresh enabled webhook with `updateIntervalMs = 5000`
(`lastSentAt = 0`) ticked every millisecond fires at exactly t = 5000,
10000, 15000, ... — NOT at t = 0; whenever a send is attempted,
`lastSentAt` is set to the attempt time (independent of Notification Sink
success, which influences nothing in the scheduler). -/
theorem scheduler_amended (s : HubState) (b : Bool) (wid wname wurl : String) :
    (∀ w0 : WebhookConfig, w0.updateIntervalMs = 0 →
      ∀ ts, schedTrace s b w0 ts = (w0, [])) ∧
    (∀ N, N ≤ ULONG_MOD →
      (schedTrace s b ⟨wid, wname, wurl, true, 5000, 0⟩ (List.range N)).2 =
        (List.range N).filter (fun t => t % 5000 == 0 && t != 0)) ∧
    (∀ w1 t, (sendScheduled1 s b t w1).2.isSome = true →
      (sendScheduled1 s b t w1).1.lastUpdate = t) ∧
    (∀ w1 ts, schedTrace s b w1 ts = schedTrace s true w1 ts) := by
  refine ⟨?_, ?_, ?_, ?_⟩
  · intro w0 h0 ts
    induction ts with
    | nil => rfl
    | cons t ts ih => simp [schedTrace, sendScheduled1_interval0 s b t w0 h0, ih]
  · intro N hN
    exact (schedTrace_range_5000 s b wid wname wurl N hN).2
  · intro w1 t h
    unfold sendScheduled1 at h ⊢
    split_ifs at h ⊢ with h1 h2
    · simp at h
    · rfl
    · simp at h
  · intro w1 ts
    induction ts generalizing w1 with
    | nil => rfl
    | cons t ts ih =>
      simp only [schedTrace]
      rw [show sendScheduled1 s b t w1 = sendScheduled1 s true t w1 from rfl, ih]

/-- C6 witness: the amended statement at concrete inputs: the interval-0
webhook fires at none of the first three ticks, and over the first 10001
milliseconds the 5000 ms webhook fires exactly at the nonzero multiples of
5000, with the step updating `lastUpdate` at a firing tick. -/
theorem scheduler_amended_witness :
    schedTrace hub0 true wC6z [0, 1, 2] = (wC6z, []) ∧
    (schedTrace hub0 true ⟨"sched", "Sched", "http://sink", true, 5000, 0⟩
      (List.range 10001)).2 =
      (List.range 10001).filter (fun t => t % 5000 == 0 && t != 0) ∧
    (sendScheduled1 hub0 true 5000 wC6).1.lastUpdate = 5000 :=
  ⟨(scheduler_amended hub0 true "sched" "Sched" "http://sink").1 wC6z rfl [0, 1, 2],
   (scheduler_amended hub0 true "sched" "Sched" "http://sink").2.1 10001 (by decide),
   (scheduler_amended hub0 true "sched" "Sched" "http://sink").2.2.1 wC6 5000
     (by decide)⟩

/-! ### Store lemmas -/

theorem putP_eq (st : Store) (k : PrefKey) (v : PrefValue) :
    putP st k v k = some v := by
  simp [putP]

theorem putP_ne (st : Store) (k k2 : PrefKey) (v : PrefValue) (h : k2 ≠ k) :
    putP st k v k2 = st k2 := by
  simp [putP, h]

theorem getStringD_some (st : Store) (k : PrefKey) (d v : String)
    (h : st k = some (.pS v)) : getStringD st k d = v := by
  simp [getStringD, h]

theorem getIntD_some (st : Store) (k : PrefKey) (d v : Int)
    (h : st k = some (.pI v)) : getIntD st k d = v := by
  simp [getIntD, h]

theorem getBoolD_some (st : Store) (k : PrefKey) (d v : Bool)
    (h : st k = some (.pB v)) : getBoolD st k d = v := by
  simp [getBoolD, h]

theorem getFloatD_some (st : Store) (k : PrefKey) (d v : Value)
    (h : st k = some (.pF v)) : getFloatD st k d = v := by
  simp [getFloatD, h]

theorem getULongD_some (st : Store) (k : PrefKey) (d v : Nat)
    (h : st k = some (.pU v)) : getULongD st k d = v := by
  simp [getULongD, h]

theorem putFields_apply_ne {F : Type} (mk : F → PrefKey) (fv : F → PrefValue)
    (st : Store) (fs : List F) (k : PrefKey) (hk : ∀ f ∈ fs, k ≠ mk f) :
    putFields mk fv st fs k = st k := by
  induction fs generalizing st with
  | nil => rfl
  | cons f fs ih =>
    show putFields mk fv (putP st (mk f) (fv f)) fs k = st k
    rw [ih (putP st (mk f) (fv f)) fun g hg => hk g (List.mem_cons_of_mem f hg)]
    exact putP_ne st (mk f) k (fv f) (hk f (List.mem_cons_self f fs))

theorem putFields_apply_mem {F : Type} (mk : F → PrefKey)
    (hinj : ∀ f g, mk f = mk g → f = g) (fv : F → PrefValue) (st : Store)
    (fs : List F) (f : F) (hmem : f ∈ fs) (hnd : fs.Nodup) :
    putFields mk fv st fs (mk f) = some (fv f) := by
  induction fs generalizing st with
  | nil => cases hmem
  | cons g fs ih =>
    rcases List.mem_cons.1 hmem with rfl | hf
    · have hg : f ∉ fs := (List.nodup_cons.1 hnd).1
      show putFields mk fv (putP st (mk f) (fv f)) fs (mk f) = some (fv f)
      rw [putFields_apply_ne mk fv _ fs (mk f) fun x hx hEq => hg (by
        rw [hinj f x hEq]; exact hx)]
      exact putP_eq st (mk f) (fv f)
    · exact ih (putP st (mk g) (fv g)) hf (List.nodup_cons.1 hnd).2

theorem saveEntries_apply_ne {α F : Type} (mkK : Nat → F → PrefKey)
    (val : α → F → PrefValue) (fields : List F) (l : List α) (i0 : Nat)
    (st : Store) (k : PrefKey) (hk : ∀ j f, i0 ≤ j → k ≠ mkK j f) :
    saveEntries (fun st i x => putFields (mkK i) (val x) st fields) l i0 st k =
      st k := by
  induction l generalizing i0 st with
  | nil => rfl
  | cons x rest ih =>
    show saveEntries _ rest (i0 + 1) _ k = st k
    rw [ih (i0 + 1) _ fun j f hj => hk j f (le_trans (Nat.le_succ i0) hj)]
    exact putFields_apply_ne (mkK i0) (val x) st fields k
      fun f _ => hk i0 f (le_refl i0)

theorem saveEntries_apply_at {α F : Type} (mkK : Nat → F → PrefKey)
    (hinj : ∀ i f j g, mkK i f = mkK j g → i = j ∧ f = g)
    (val : α → F → PrefValue) (fields : List F) (hnd : fields.Nodup)
    (hall : ∀ f : F, f ∈ fields) (l : List α) (i0 : Nat) (st : Store)
    (i : Nat) (f : F) (h : i < l.length) :
    saveEntries (fun st i x => putFields (mkK i) (val x) st fields) l i0 st
      (mkK (i0 + i) f) = some (val (l.get ⟨i, h⟩) f) := by
  induction l generalizing i0 st i with
  | nil => exact absurd h (Nat.not_lt_zero i)
  | cons x rest ih =>
    cases i with
    | zero =>
      show saveEntries (fun st i x => putFields (mkK i) (val x) st fields) rest
          (i0 + 1) (putFields (mkK i0) (val x) st fields) (mkK i0 f) =
        some (val x f)
      rw [saveEntries_apply_ne mkK val fields rest (i0 + 1)
        (putFields (mkK i0) (val x) st fields) (mkK i0 f)
        fun j g hj hEq => by
          have := (hinj i0 f j g hEq).1
          omega]
      exact putFields_apply_mem (mkK i0)
        (fun a c hEq => (hinj i0 a i0 c hEq).2) (val x) st fields f (hall f) hnd
    | succ i =>
      show saveEntries (fun st i x => putFields (mkK i) (val x) st fields) rest
          (i0 + 1) (putFields (mkK i0) (val x) st fields) (mkK (i0 + (i + 1)) f) =
        some (val ((x :: rest).get ⟨i + 1, h⟩) f)
      rw [show i0 + (i + 1) = (i0 + 1) + i by omega]
      exact ih (i0 + 1) (putFields (mkK i0) (val x) st fields) i
        (Nat.lt_of_succ_lt_succ h)

theorem saveSensors_ne (l : List DS18B20Sensor) (i0 : Nat) (st : Store)
    (k : PrefKey) (hk : ∀ j f, i0 ≤ j → k ≠ PrefKey.ds j f) :
    saveEntries saveSensorAt l i0 st k = st k :=
  saveEntries_apply_ne PrefKey.ds dsFieldVal DsField.all l i0 st k hk

theorem saveAlarms_ne (l : List Alarm) (i0 : Nat) (st : Store) (k : PrefKey)
    (hk : ∀ j f, i0 ≤ j → k ≠ PrefKey.al j f) :
    saveEntries saveAlarmAt l i0 st k = st k :=
  saveEntries_apply_ne PrefKey.al alFieldVal AlField.all l i0 st k hk

theorem saveWebhooks_ne (l : List WebhookConfig) (i0 : Nat) (st : Store)
    (k : PrefKey) (hk : ∀ j f, i0 ≤ j → k ≠ PrefKey.wh j f) :
    saveEntries saveWebhookAt l i0 st k = st k :=
  saveEntries_apply_ne PrefKey.wh whFieldVal WhField.all l i0 st k hk

theorem saveSensors_at (l : List DS18B20Sensor) (i0 : Nat) (st : Store)
    (i : Nat) (f : DsField) (h : i < l.length) :
    saveEntries saveSensorAt l i0 st (PrefKey.ds (i0 + i) f) =
      some (dsFieldVal (l.get ⟨i, h⟩) f) :=
  saveEntries_apply_at PrefKey.ds
    (fun i f j g hEq => by injection hEq with h1 h2; exact ⟨h1, h2⟩)
    dsFieldVal DsField.all (by decide) (fun f => by cases f <;> decide)
    l i0 st i f h

theorem saveAlarms_at (l : List Alarm) (i0 : Nat) (st : Store) (i : Nat)
    (f : AlField) (h : i < l.length) :
    saveEntries saveAlarmAt l i0 st (PrefKey.al (i0 + i) f) =
      some (alFieldVal (l.get ⟨i, h⟩) f) :=
  saveEntries_apply_at PrefKey.al
    (fun i f j g hEq => by injection hEq with h1 h2; exact ⟨h1, h2⟩)
    alFieldVal AlField.all (by decide) (fun f => by cases f <;> decide)
    l i0 st i f h

theorem saveWebhooks_at (l : List WebhookConfig) (i0 : Nat) (st : Store)
    (i : Nat) (f : WhField) (h : i < l.length) :
    saveEntries saveWebhookAt l i0 st (PrefKey.wh (i0 + i) f) =
      some (whFieldVal (l.get ⟨i, h⟩) f) :=
  saveEntries_apply_at PrefKey.wh
    (fun i f j g hEq => by injection hEq with h1 h2; exact ⟨h1, h2⟩)
    whFieldVal WhField.all (by decide) (fun f => by cases f <;> decide)
    l i0 st i f h

/-! ### Address and sensor-type codec round trips -/

theorem byteHex_length (b : Fin 256) : (byteHex b).length = 2 := by
  unfold byteHex
  split <;> rfl

set_option maxRecDepth 100000 in
theorem byte_roundtrip (b : Fin 256) :
    byteOfChars ((byteHex b).map Char.toUpper) = b := by
  revert b
  decide

theorem addrChars_extract : ∀ (l : List (Fin 256)) (i : Nat) (hi : i < l.length),
    (((addrChars l).map Char.toUpper).drop (3 * i)).take 2 =
      (byteHex (l.get ⟨i, hi⟩)).map Char.toUpper := by
  intro l
  induction l with
  | nil => intro i hi; cases hi
  | cons b rest ih =>
    intro i hi
    obtain ⟨x, y, hxy⟩ := List.length_eq_two.mp
      (show ((byteHex b).map Char.toUpper).length = 2 by
        rw [List.length_map, byteHex_length])
    cases rest with
    | nil =>
      have h0 : i = 0 := by
        simp at hi
        omega
      subst h0
      show (((byteHex b).map Char.toUpper).drop 0).take 2 =
        (byteHex b).map Char.toUpper
      rw [hxy]
      rfl
    | cons c rest2 =>
      have hsplit : addrChars (b :: c :: rest2) =
          byteHex b ++ ':' :: addrChars (c :: rest2) := rfl
      cases i with
      | zero =>
        show (((addrChars (b :: c :: rest2)).map Char.toUpper).drop 0).take 2 =
          (byteHex b).map Char.toUpper
        rw [hsplit, List.map_append, hxy, List.drop_zero]
        rfl
      | succ i =>
        have hi2 : i < (c :: rest2).length := Nat.lt_of_succ_lt_succ hi
        have hkey : (((addrChars (c :: rest2)).map Char.toUpper).drop (3 * i)).take 2 =
            (byteHex ((c :: rest2).get ⟨i, hi2⟩)).map Char.toUpper := ih i hi2
        show (((addrChars (b :: c :: rest2)).map Char.toUpper).drop (3 * (i + 1))).take 2 = _
        rw [hsplit, List.map_append, hxy,
          show 3 * (i + 1) = 3 * i + 1 + 1 + 1 by ring]
        show ((x :: y :: Char.toUpper ':' ::
          (addrChars (c :: rest2)).map Char.toUpper).drop (3 * i + 1 + 1 + 1)).take 2 = _
        rw [List.drop_succ_cons, List.drop_succ_cons, List.drop_succ_cons]
        exact hkey

theorem stringToAddress_addressToString (l : List (Fin 256))
    (h : l.length = 8) : stringToAddress (addressToString l) = l := by
  apply List.ext_get
  · simp [stringToAddress, h]
  · intro i h1 h2
    simp only [stringToAddress, List.get_eq_getElem, List.getElem_map,
      List.getElem_range]
    have hlt : i < l.length := h2
    rw [show (addressToString l).data = (addrChars l).map Char.toUpper from rfl]
    rw [show ((((addrChars l).map Char.toUpper).drop (3 * i)).take 2) =
        (byteHex (l.get ⟨i, hlt⟩)).map Char.toUpper from addrChars_extract l i hlt]
    rw [byte_roundtrip]
    simp [List.get_eq_getElem]

theorem addressToString_length_pos (l : List (Fin 256)) (h : l ≠ []) :
    (addressToString l).length > 0 := by
  cases l with
  | nil => exact absurd rfl h
  | cons b rest =>
    show ((addrChars (b :: rest)).map Char.toUpper).length > 0
    rw [List.length_map]
    cases rest with
    | nil =>
      show (byteHex b).length > 0
      rw [byteHex_length]
      omega
    | cons c rest2 =>
      show (byteHex b ++ ':' :: addrChars (c :: rest2)).length > 0
      rw [List.length_append, byteHex_length]
      simp

theorem stringToSensorType_roundtrip (t : SensorType) :
    stringToSensorType (sensorTypeToString t) = t := by
  cases t <;> rfl

/-! ### What `saveConfiguration` leaves at each key -/

theorem saveConfig_dsCount (reg : RegState) (st : Store) :
    saveConfiguration reg st PrefKey.dsCount =
      some (.pI reg.ds18b20List.length) := by
  simp only [saveConfiguration]
  rw [saveWebhooks_ne _ _ _ _ fun j g hj hEq => by cases hEq]
  rw [putP_ne _ _ _ _ fun hEq => by cases hEq]
  rw [saveAlarms_ne _ _ _ _ fun j g hj hEq => by cases hEq]
  rw [putP_ne _ _ _ _ fun hEq => by cases hEq]
  rw [saveSensors_ne _ _ _ _ fun j g hj hEq => by cases hEq]
  exact putP_eq st .dsCount _

theorem saveConfig_alarmCount (reg : RegState) (st : Store) :
    saveConfiguration reg st PrefKey.alarmCount =
      some (.pI reg.alarms.length) := by
  simp only [saveConfiguration]
  rw [saveWebhooks_ne _ _ _ _ fun j g hj hEq => by cases hEq]
  rw [putP_ne _ _ _ _ fun hEq => by cases hEq]
  rw [saveAlarms_ne _ _ _ _ fun j g hj hEq => by cases hEq]
  exact putP_eq _ .alarmCount _

theorem saveConfig_whCount (reg : RegState) (st : Store) :
    saveConfiguration reg st PrefKey.whCount =
      some (.pI reg.webhooks.length) := by
  simp only [saveConfiguration]
  rw [saveWebhooks_ne _ _ _ _ fun j g hj hEq => by cases hEq]
  exact putP_eq _ .whCount _

theorem saveConfig_ds (reg : RegState) (st : Store) (i : Nat) (f : DsField)
    (h : i < reg.ds18b20List.length) :
    saveConfiguration reg st (PrefKey.ds i f) =
      some (dsFieldVal (reg.ds18b20List.get ⟨i, h⟩) f) := by
  simp only [saveConfiguration]
  rw [saveWebhooks_ne _ _ _ _ fun j g hj hEq => by cases hEq]
  rw [putP_ne _ _ _ _ fun hEq => by cases hEq]
  rw [saveAlarms_ne _ _ _ _ fun j g hj hEq => by cases hEq]
  rw [putP_ne _ _ _ _ fun hEq => by cases hEq]
  have hat := saveSensors_at reg.ds18b20List 0
    (putP st .dsCount (.pI reg.ds18b20List.length)) i f h
  rw [Nat.zero_add] at hat
  exact hat

theorem saveConfig_al (reg : RegState) (st : Store) (i : Nat) (f : AlField)
    (h : i < reg.alarms.length) :
    saveConfiguration reg st (PrefKey.al i f) =
      some (alFieldVal (reg.alarms.get ⟨i, h⟩) f) := by
  simp only [saveConfiguration]
  rw [saveWebhooks_ne _ _ _ _ fun j g hj hEq => by cases hEq]
  rw [putP_ne _ _ _ _ fun hEq => by cases hEq]
  have hat := saveAlarms_at reg.alarms 0
    (putP (saveEntries saveSensorAt reg.ds18b20List 0
      (putP st .dsCount (.pI reg.ds18b20List.length)))
      .alarmCount (.pI reg.alarms.length)) i f h
  rw [Nat.zero_add] at hat
  exact hat

theorem saveConfig_wh (reg : RegState) (st : Store) (i : Nat) (f : WhField)
    (h : i < reg.webhooks.length) :
    saveConfiguration reg st (PrefKey.wh i f) =
      some (whFieldVal (reg.webhooks.get ⟨i, h⟩) f) := by
  simp only [saveConfiguration]
  have hat := saveWebhooks_at reg.webhooks 0
    (putP (saveEntries saveAlarmAt reg.alarms 0
      (putP (saveEntries saveSensorAt reg.ds18b20List 0
        (putP st .dsCount (.pI reg.ds18b20List.length)))
        .alarmCount (.pI reg.alarms.length)))
      .whCount (.pI reg.webhooks.length)) i f h
  rw [Nat.zero_add] at hat
  exact hat

/-! ### What `loadConfiguration` reconstructs per entry -/

theorem loadSensorAt_save (reg : RegState) (st : Store) (i : Nat)
    (h : i < reg.ds18b20List.length)
    (haddr : (reg.ds18b20List.get ⟨i, h⟩).address.length = 8) :
    loadSensorAt (saveConfiguration reg st) i =
      { reg.ds18b20List.get ⟨i, h⟩ with lastReading := -127 } := by
  have ha := getStringD_some _ _ "" _ (saveConfig_ds reg st i .addr h)
  have hid := getStringD_some _ _ "" _ (saveConfig_ds reg st i .id h)
  have hname := getStringD_some _ _ "" _ (saveConfig_ds reg st i .name h)
  have hen := getBoolD_some _ _ true _ (saveConfig_ds reg st i .en h)
  have hne : (reg.ds18b20List.get ⟨i, h⟩).address ≠ [] := by
    intro hnil
    rw [hnil] at haddr
    simp at haddr
  simp only [loadSensorAt]
  rw [ha, hid, hname, hen, if_pos (addressToString_length_pos _ hne),
    stringToAddress_addressToString _ haddr]

theorem loadAlarmAt_save (reg : RegState) (st : Store) (i : Nat)
    (h : i < reg.alarms.length) :
    loadAlarmAt (saveConfiguration reg st) i =
      { reg.alarms.get ⟨i, h⟩ with lastTriggered := 0 } := by
  have hid := getStringD_some _ _ "" _ (saveConfig_al reg st i .id h)
  have hname := getStringD_some _ _ "" _ (saveConfig_al reg st i .name h)
  have hty := getStringD_some _ _ "" _ (saveConfig_al reg st i .type h)
  have hsid := getStringD_some _ _ "" _ (saveConfig_al reg st i .sid h)
  have hmin := getFloatD_some _ _ (-999) _ (saveConfig_al reg st i .min h)
  have hmax := getFloatD_some _ _ 999 _ (saveConfig_al reg st i .max h)
  have hen := getBoolD_some _ _ true _ (saveConfig_al reg st i .en h)
  have hurl := getStringD_some _ _ "" _ (saveConfig_al reg st i .url h)
  have hcd := getULongD_some _ _ 60000 _ (saveConfig_al reg st i .cd h)
  simp only [loadAlarmAt]
  rw [hid, hname, hty, hsid, hmin, hmax, hen, hurl, hcd,
    stringToSensorType_roundtrip]

theorem loadWebhookAt_save (reg : RegState) (st : Store) (i : Nat)
    (h : i < reg.webhooks.length) :
    loadWebhookAt (saveConfiguration reg st) i =
      { reg.webhooks.get ⟨i, h⟩ with lastUpdate := 0 } := by
  have hid := getStringD_some _ _ "" _ (saveConfig_wh reg st i .id h)
  have hname := getStringD_some _ _ "" _ (saveConfig_wh reg st i .name h)
  have hurl := getStringD_some _ _ "" _ (saveConfig_wh reg st i .url h)
  have hen := getBoolD_some _ _ true _ (saveConfig_wh reg st i .en h)
  have hint := getULongD_some _ _ 0 _ (saveConfig_wh reg st i .int h)
  simp only [loadWebhookAt]
  rw [hid, hname, hurl, hen, hint]

/-- One alarm, one sensor, one webhook — a registry for the round-trip
witness. -/
def regC7 : RegState :=
  { ds18b20List := [senC9], alarms := [aC9], webhooks := [wC8] }

/-! ### C7: persistence round trip -/

/-- C7: `saveConfiguration` followed by `loadConfiguration` reproduces
every persisted field of every sensor, alarm and webhook exactly (ids,
names, addresses, sensor kind and reference, bounds, enabled flags, URLs,
cooldowns, intervals and the three counts), while the runtime-only fields
come back at their sentinels: `lastReading = -127.0` (disconnected),
`lastTriggered = 0` and `lastUpdate = 0` (never). -/
theorem save_load_roundtrip (reg : RegState) (st : Store)
    (haddr : ∀ sen ∈ reg.ds18b20List, sen.address.length = 8) :
    loadConfiguration (saveConfiguration reg st) = resetRuntime reg := by
  have hds : (getIntD (saveConfiguration reg st) .dsCount 0).toNat =
      reg.ds18b20List.length := by
    rw [getIntD_some _ _ 0 _ (saveConfig_dsCount reg st)]
    simp
  have hal : (getIntD (saveConfiguration reg st) .alarmCount 0).toNat =
      reg.alarms.length := by
    rw [getIntD_some _ _ 0 _ (saveConfig_alarmCount reg st)]
    simp
  have hwh : (getIntD (saveConfiguration reg st) .whCount 0).toNat =
      reg.webhooks.length := by
    rw [getIntD_some _ _ 0 _ (saveConfig_whCount reg st)]
    simp
  simp only [loadConfiguration, resetRuntime, RegState.mk.injEq]
  refine ⟨?_, ?_, ?_⟩
  · rw [hds]
    apply List.ext_get
    · simp
    · intro n h1 h2
      have hn : n < reg.ds18b20List.length := by simpa using h2
      simp only [List.get_eq_getElem, List.getElem_map, List.getElem_range]
      have := loadSensorAt_save reg st n hn (haddr _ (List.get_mem _ _ _))
      simpa [List.get_eq_getElem] using this
  · rw [hal]
    apply List.ext_get
    · simp
    · intro n h1 h2
      have hn : n < reg.alarms.length := by simpa using h2
      simp only [List.get_eq_getElem, List.getElem_map, List.getElem_range]
      have := loadAlarmAt_save reg st n hn
      simpa [List.get_eq_getElem] using this
  · rw [hwh]
    apply List.ext_get
    · simp
    · intro n h1 h2
      have hn : n < reg.webhooks.length := by simpa using h2
      simp only [List.get_eq_getElem, List.getElem_map, List.getElem_range]
      have := loadWebhookAt_save reg st n hn
      simpa [List.get_eq_getElem] using this

/-- C7 witness: the round trip at a concrete one-of-each registry over the
empty store. -/
theorem save_load_roundtrip_witness :
    loadConfiguration (saveConfiguration regC7 store0) = resetRuntime regC7 :=
  save_load_roundtrip regC7 store0 (by decide)

end SensorHub
